import Mathlib

/-!
Shallow embedding of `src/simple-vector/simple_vector.h` (class `SimpleVector<Type>`,
its free comparison operators, and the operations the claims mention).

Modelling conventions:
* A `SimpleVector` state carries the owned allocation (`buffer`, a list whose length
  is the number of slots actually allocated), the `size_` field and the `capacity_`
  field.  `buffer.length` is kept separate from `capacity_` because the source can
  make them diverge (e.g. the copy constructor's member-initializer list allocates
  `other.capacity_` slots but never initializes the `capacity_` member).
* `size_t` values become `Nat` (no arithmetic in the source can overflow on the
  inputs we consider; all arithmetic is additions, doublings and subtractions of
  in-range indices).
* Raw memory accesses are bounds-checked in the model: an out-of-bounds read or
  write — undefined behavior in the C++ — makes the operation return `none`.
  A failed `assert` (debug-build abort) is also modelled as `none`.
* `Type()` (the element type's default value) becomes `(default : α)` from
  `Inhabited`.
-/

namespace SimpleVec

/-- Modelled from the spec: the buffer owner `ArrayPtr<Type>` lives in
`array_ptr.h`, which is not under `src/`.  Per the spec (§4.1), `Construct(capacity)`
"allocates storage for exactly `capacity` elements; capacity 0 is valid and
allocates nothing", and default-constructing the elements is allowed at this layer
(`new Type[n]` default-constructs class-type elements).  A fresh allocation is
modelled as `n` default-valued slots. -/
def allocArray (α : Type) [Inhabited α] (n : Nat) : List α :=
  List.replicate n default

/-- Write value `v` into slots `[first, first + n)` of `buf` (unchecked; callers
bound-check).  Models the forward fill loops of the source. -/
def setRange {α : Type} (buf : List α) (first : Nat) (v : α) : Nat → List α
  | 0 => buf
  | n + 1 => (setRange buf first v n).set (first + n) v

/-- Copy `n` elements from `src[sfirst …]` into `dst[dfirst …]` (unchecked; callers
bound-check).  Reads come from the `src` list value, i.e. snapshot semantics.  For
the source's overlapping in-buffer uses this is exact: `std::copy_backward` shifting
right iterates back-to-front and `std::move` shifting left iterates front-to-back,
so every slot is read before it is overwritten. -/
def copyRange {α : Type} [Inhabited α] (src : List α) (sfirst : Nat)
    (dst : List α) (dfirst : Nat) : Nat → List α
  | 0 => dst
  | n + 1 => (copyRange src sfirst dst dfirst n).set (dfirst + n) (src.getD (sfirst + n) default)

/-- A single bounds-checked slot write (`ArrayPtr::operator[]` used as lvalue). -/
def writeSlot {α : Type} (buf : List α) (i : Nat) (x : α) : Option (List α) :=
  if i < buf.length then some (buf.set i x) else none

/-- `std::fill(buf + first, buf + last, v)`: writes `[first, last)`; out-of-bounds
writes are UB (`none`). -/
def stdFill {α : Type} (buf : List α) (first last : Nat) (v : α) : Option (List α) :=
  if first ≤ last ∧ last ≤ buf.length then some (setRange buf first v (last - first)) else none

/-- `std::copy(src + sfirst, src + slast, dst + dfirst)` (also models `std::move`,
which differs only by moving from the source elements).  Invalid ranges or
out-of-bounds reads/writes are UB (`none`). -/
def stdCopy {α : Type} [Inhabited α] (src : List α) (sfirst slast : Nat)
    (dst : List α) (dfirst : Nat) : Option (List α) :=
  if sfirst ≤ slast ∧ slast ≤ src.length ∧ dfirst + (slast - sfirst) ≤ dst.length then
    some (copyRange src sfirst dst dfirst (slast - sfirst))
  else none

/-- `std::copy_backward(src + sfirst, src + slast, dst + dlast)` (also models
`std::move_backward`): writes `[dlast - (slast - sfirst), dlast)` back-to-front.
Invalid ranges or out-of-bounds reads/writes are UB (`none`). -/
def stdCopyBackward {α : Type} [Inhabited α] (src : List α) (sfirst slast : Nat)
    (dst : List α) (dlast : Nat) : Option (List α) :=
  if sfirst ≤ slast ∧ slast ≤ src.length ∧ slast - sfirst ≤ dlast ∧ dlast ≤ dst.length then
    some (copyRange src sfirst dst (dlast - (slast - sfirst)) (slast - sfirst))
  else none

theorem length_setRange {α : Type} (buf : List α) (first : Nat) (v : α) :
    ∀ n, (setRange buf first v n).length = buf.length
  | 0 => rfl
  | n + 1 => by
    simp [setRange, List.length_set, length_setRange buf first v n]

theorem getElem?_setRange {α : Type} (buf : List α) (first : Nat) (v : α) (i : Nat) :
    ∀ n, (setRange buf first v n)[i]? =
      if first ≤ i ∧ i < first + n then (if i < buf.length then some v else none)
      else buf[i]?
  | 0 => by
    simp only [setRange]
    rw [if_neg (by omega)]
  | n + 1 => by
    simp only [setRange]
    rw [List.getElem?_set, length_setRange, getElem?_setRange buf first v i n]
    by_cases h : first + n = i
    · rw [if_pos h, if_pos (show first ≤ i ∧ i < first + (n + 1) by omega)]
      have hh : i = first + n := h.symm
      rw [hh]
    · rw [if_neg h]
      by_cases h2 : first ≤ i ∧ i < first + n
      · rw [if_pos h2, if_pos (show first ≤ i ∧ i < first + (n + 1) by omega)]
      · rw [if_neg h2, if_neg (show ¬(first ≤ i ∧ i < first + (n + 1)) by omega)]

theorem length_copyRange {α : Type} [Inhabited α] (src : List α) (sfirst : Nat)
    (dst : List α) (dfirst : Nat) :
    ∀ n, (copyRange src sfirst dst dfirst n).length = dst.length
  | 0 => rfl
  | n + 1 => by
    simp [copyRange, List.length_set, length_copyRange src sfirst dst dfirst n]

theorem getElem?_copyRange {α : Type} [Inhabited α] (src : List α) (sfirst : Nat)
    (dst : List α) (dfirst : Nat) (i : Nat) :
    ∀ n, (copyRange src sfirst dst dfirst n)[i]? =
      if dfirst ≤ i ∧ i < dfirst + n then
        (if i < dst.length then some (src.getD (sfirst + (i - dfirst)) default) else none)
      else dst[i]?
  | 0 => by
    simp only [copyRange]
    rw [if_neg (by omega)]
  | n + 1 => by
    simp only [copyRange]
    rw [List.getElem?_set, length_copyRange, getElem?_copyRange src sfirst dst dfirst i n]
    by_cases h : dfirst + n = i
    · have hv : sfirst + (i - dfirst) = sfirst + n := by omega
      rw [if_pos h, hv, if_pos (show dfirst ≤ i ∧ i < dfirst + (n + 1) by omega), h]
    · rw [if_neg h]
      by_cases h2 : dfirst ≤ i ∧ i < dfirst + n
      · rw [if_pos h2, if_pos (show dfirst ≤ i ∧ i < dfirst + (n + 1) by omega)]
      · rw [if_neg h2, if_neg (show ¬(dfirst ≤ i ∧ i < dfirst + (n + 1)) by omega)]

/-- Filling an all-`a` buffer with `a` changes nothing. -/
theorem setRange_replicate {α : Type} (n first k : Nat) (a : α) :
    setRange (List.replicate n a) first a k = List.replicate n a := by
  apply List.ext_getElem?
  intro i
  rw [getElem?_setRange]
  by_cases h : first ≤ i ∧ i < first + k
  · rw [if_pos h, List.length_replicate, List.getElem?_replicate]
  · rw [if_neg h]

/-- The state of a `SimpleVector<Type>` object: the owned allocation
(`simple_vector_`, an `ArrayPtr<Type>`, modelled by the list of its slots), the
`size_` member and the `capacity_` member.  The members' default initializers are
`size_ = 0` and `capacity_ = 0`. -/
structure SimpleVector (α : Type) where
  buffer : List α
  size_ : Nat
  capacity_ : Nat
deriving DecidableEq

variable {α : Type} [Inhabited α]

/-- `GetSize`: `return size_;` -/
def GetSize (v : SimpleVector α) : Nat := v.size_

/-- `GetCapacity`: `return capacity_;` -/
def GetCapacity (v : SimpleVector α) : Nat := v.capacity_

/-- `IsEmpty`: `return size_ == 0;` -/
def IsEmpty (v : SimpleVector α) : Bool := v.size_ == 0

/-- `Clear`: `size_ = 0;` -/
def Clear (v : SimpleVector α) : SimpleVector α :=
  { v with size_ := 0 }

/-- `SimpleVector()` (defaulted): null buffer, `size_ = 0`, `capacity_ = 0`. -/
def mkDefault (α : Type) : SimpleVector α := ⟨[], 0, 0⟩

/-- `SimpleVector(size_t size, const Type& value)`: member-init list
`simple_vector_(size), size_(size), capacity_(size)`, then
`std::fill(Get(), Get() + size, value)`. -/
def mkSizedValue (n : Nat) (value : α) : Option (SimpleVector α) :=
  match stdFill (allocArray α n) 0 n value with
  | none => none
  | some buf => some ⟨buf, n, n⟩

/-- `SimpleVector(size_t size)`: delegates to `SimpleVector(size, Type())`. -/
def mkSized (α : Type) [Inhabited α] (n : Nat) : Option (SimpleVector α) :=
  mkSizedValue n (default : α)

/-- `SimpleVector(std::initializer_list<Type> init)`: member-init list
`simple_vector_(init.size()), size_(init.size()), capacity_(init.size())`, then
`std::copy(init.begin(), init.end(), Get())`. -/
def mkFromList (init : List α) : Option (SimpleVector α) :=
  match stdCopy init 0 init.length (allocArray α init.length) 0 with
  | none => none
  | some buf => some ⟨buf, init.length, init.length⟩

/-- `SimpleVector(const SimpleVector& other)`: member-init list
`simple_vector_(other.capacity_), size_(other.size_)` — note `capacity_` is NOT in
the list, so it keeps its default member initializer `0`.  Body:
`std::copy(other.begin(), other.end(), simple_vector_.Get())` (reads the first
`other.size_` slots of `other`). -/
def copyCtor (other : SimpleVector α) : Option (SimpleVector α) :=
  match stdCopy other.buffer 0 other.size_ (allocArray α other.capacity_) 0 with
  | none => none
  | some buf => some ⟨buf, other.size_, 0⟩

/-- `void swap(SimpleVector& other)`: `std::swap(capacity_, other.capacity_);
std::swap(size_, other.size_); simple_vector_.swap(other.simple_vector_);`
(the last being the buffer owner's field-exchanging swap, modelled from the spec's
§4.1 Swap contract since `array_ptr.h` is not under `src/`).
Returns `(this after, other after)`. -/
def swapOp (a b : SimpleVector α) : SimpleVector α × SimpleVector α :=
  (⟨b.buffer, b.size_, b.capacity_⟩, ⟨a.buffer, a.size_, a.capacity_⟩)

/-- `SimpleVector(SimpleVector&& other)`: member-init list `simple_vector_(other.capacity_)`
(a fresh allocation of `other.capacity_` slots! `size_` and `capacity_` keep their
default initializers `0`), then `swap(other)`.  Returns
`(the constructed object, other after)`. -/
def moveCtor (other : SimpleVector α) : SimpleVector α × SimpleVector α :=
  swapOp ⟨allocArray α other.capacity_, 0, 0⟩ other

/-- `operator=(const SimpleVector& rhs)`: guarded by
`&simple_vector_ != &rhs.simple_vector_` — the member addresses coincide exactly
when `*this` and `rhs` are the same object, which the model passes as the flag
`sameObj`.  In the non-self case: `auto helper(rhs); swap(helper);`, i.e. the
result is the copy-constructed helper. -/
def operatorAssign (lhs rhs : SimpleVector α) (sameObj : Bool) : Option (SimpleVector α) :=
  if sameObj then some lhs else copyCtor rhs

/-- The copy-and-swap shape of `operator=`: the receiver is touched only by the
final `swap(helper)`, so if constructing `helper` fails (`none`, e.g. an exception
while copying) the receiver keeps its original state. -/
def assignViaCopySwap (lhs : SimpleVector α) (helper : Option (SimpleVector α)) :
    SimpleVector α :=
  match helper with
  | none => lhs
  | some h => h

/-- `operator[](size_t index)`: `assert(index < size_); return simple_vector_[index];`
(assert failure modelled as `none`; the read is in bounds on well-formed states). -/
def opIndex (v : SimpleVector α) (index : Nat) : Option α :=
  if index < v.size_ then some (v.buffer.getD index default) else none

/-- `At(size_t index)`: `if (index >= size_) throw std::out_of_range("Out of range");
return simple_vector_[index];` — `none` is the thrown out-of-range error. -/
def At (v : SimpleVector α) (index : Nat) : Option α :=
  if index ≥ v.size_ then none else some (v.buffer.getD index default)

/-- Outcome of a call into the interface, separating the two failure channels of
the source's error-handling design: `thrown` is a recoverable error surfaced to
the caller (a C++ `throw`), while `ub` is an assert failure, an out-of-bounds
access (undefined behavior) or a fatal allocation failure — conditions the caller
cannot recover from. -/
inductive Outcome (σ : Type) where
  | ok : σ → Outcome σ
  | thrown : Outcome σ
  | ub : Outcome σ
deriving DecidableEq

/-- Lift an operation whose body contains no `throw` statement into `Outcome`:
its modelled `none` can only come from an assert, an out-of-bounds access or
allocation, never from a recoverable error.  Inspecting `simple_vector.h`, the
only `throw` statements in the whole header are the two in the `At` overloads;
every other member and free function is `throw`-free. -/
def asUB {σ : Type} (x : Option σ) : Outcome σ :=
  match x with
  | none => Outcome.ub
  | some s => Outcome.ok s

/-- `At(size_t index)`, outcome-typed: `if (index >= size_) throw
std::out_of_range("Out of range"); return simple_vector_[index];` — the throw is
the recoverable out-of-range error (`Outcome.thrown`). -/
def AtE (v : SimpleVector α) (index : Nat) : Outcome α :=
  if index ≥ v.size_ then Outcome.thrown
  else Outcome.ok (v.buffer.getD index default)

/-- `At` together with the state it leaves behind: the method body contains no
write to any member, so the receiver after the call is the receiver before it. -/
def AtRunE (v : SimpleVector α) (index : Nat) : Outcome α × SimpleVector α :=
  (AtE v index, v)

/-- `SimpleVector::Fill(Iterator first, Iterator last)` (private):
`assert(first < last); for (; first != last; ++first) *first = std::move(Type());`
— assert failure and out-of-bounds writes are `none`. -/
def Fill (buf : List α) (first last : Nat) : Option (List α) :=
  if first < last ∧ last ≤ buf.length then
    some (setRange buf first (default : α) (last - first))
  else none

/-- `Resize(size_t new_size)`: three consecutive (non-exclusive) `if`s:
`if (new_size <= size_) size_ = new_size;` then
`if (new_size <= capacity_) Fill(Get() + size_, Get() + size_ + new_size);`
(with the possibly already truncated `size_`; `size_` is NOT set in this branch) then
`if (new_size > capacity_)` reallocate to `max(new_size, capacity_ * 2)`,
`Fill` the whole new buffer, `std::move(Get(), Get() + capacity_, temp.Get())`,
swap buffers, `size_ = new_size`, `capacity_ = new_capacity`. -/
def Resize (v : SimpleVector α) (new_size : Nat) : Option (SimpleVector α) :=
  let sz1 := if new_size ≤ v.size_ then new_size else v.size_
  if new_size ≤ v.capacity_ then
    match Fill v.buffer sz1 (sz1 + new_size) with
    | none => none
    | some buf => some ⟨buf, sz1, v.capacity_⟩
  else
    let new_capacity := max new_size (v.capacity_ * 2)
    match Fill (allocArray α new_capacity) 0 new_capacity with
    | none => none
    | some t1 =>
      match stdCopy v.buffer 0 v.capacity_ t1 0 with
      | none => none
      | some t2 => some ⟨t2, new_size, new_capacity⟩

/-- `PushBack(const Type& item)`: if `size_ + 1 > capacity_`, allocate
`max(size_ + 1, capacity_ * 2)` slots, `std::fill` them with `Type()`,
`std::copy` the first `size_` elements over, swap buffers, update `capacity_`;
then `simple_vector_[size_] = item; ++size_;`. -/
def PushBack (v : SimpleVector α) (item : α) : Option (SimpleVector α) :=
  if v.size_ + 1 > v.capacity_ then
    match stdFill (allocArray α (max (v.size_ + 1) (v.capacity_ * 2))) 0
        (max (v.size_ + 1) (v.capacity_ * 2)) (default : α) with
    | none => none
    | some t1 =>
      match stdCopy v.buffer 0 v.size_ t1 0 with
      | none => none
      | some t2 =>
        match writeSlot t2 v.size_ item with
        | none => none
        | some t3 => some ⟨t3, v.size_ + 1, max (v.size_ + 1) (v.capacity_ * 2)⟩
  else
    match writeSlot v.buffer v.size_ item with
    | none => none
    | some buf => some ⟨buf, v.size_ + 1, v.capacity_⟩

/-- `PushBack(Type&& item)`: same as the copying overload except that the fresh
buffer is not pre-filled and existing elements are `std::move`d over. -/
def pushBackMove (v : SimpleVector α) (item : α) : Option (SimpleVector α) :=
  if v.size_ + 1 > v.capacity_ then
    match stdCopy v.buffer 0 v.size_ (allocArray α (max (v.size_ + 1) (v.capacity_ * 2))) 0 with
    | none => none
    | some t2 =>
      match writeSlot t2 v.size_ item with
      | none => none
      | some t3 => some ⟨t3, v.size_ + 1, max (v.size_ + 1) (v.capacity_ * 2)⟩
  else
    match writeSlot v.buffer v.size_ item with
    | none => none
    | some buf => some ⟨buf, v.size_ + 1, v.capacity_⟩

/-- `Insert(ConstIterator pos, const Type& value)` (the `Type&&` overload has the
same structure, with moves for copies).  `count = pos - begin()`;
`assert(pos >= begin() && pos <= end())` means `count ≤ size_` (else `none`).
* `capacity_ == 0`: `ArrayPtr<Type> temp(1); temp[count] = value;` swap, `++capacity_`.
* `size_ < capacity_`: `std::copy_backward(Get() + count, Get() + size_, Get() + size_ + 1)`
  then `simple_vector_[count] = value`.
* else (`size_ == capacity_ > 0`): `new_capacity = max(size_ + 1, capacity_ * 2)` but
  `ArrayPtr<Type> temp(capacity_)` — the temporary is allocated with the OLD
  capacity; `std::copy(Get(), Get() + size_, temp.Get())`, then
  `std::copy_backward(Get() + count, Get() + size_, temp.Get() + size_ + 1)`,
  `temp[count] = value`, swap, `capacity_ = new_capacity`.
In all cases `++size_` and the returned iterator is `&simple_vector_[count]`,
modelled as the index `count` into the resulting state. -/
def Insert (v : SimpleVector α) (count : Nat) (value : α) :
    Option (SimpleVector α × Nat) :=
  if v.size_ < count then none
  else if v.capacity_ = 0 then
    match writeSlot (allocArray α 1) count value with
    | none => none
    | some temp => some (⟨temp, v.size_ + 1, v.capacity_ + 1⟩, count)
  else if v.size_ < v.capacity_ then
    match stdCopyBackward v.buffer count v.size_ v.buffer (v.size_ + 1) with
    | none => none
    | some b1 =>
      match writeSlot b1 count value with
      | none => none
      | some b2 => some (⟨b2, v.size_ + 1, v.capacity_⟩, count)
  else
    let new_capacity := max (v.size_ + 1) (v.capacity_ * 2)
    match stdCopy v.buffer 0 v.size_ (allocArray α v.capacity_) 0 with
    | none => none
    | some t1 =>
      match stdCopyBackward v.buffer count v.size_ t1 (v.size_ + 1) with
      | none => none
      | some t2 =>
        match writeSlot t2 count value with
        | none => none
        | some t3 => some (⟨t3, v.size_ + 1, new_capacity⟩, count)

/-- `PopBack()`: `assert(!IsEmpty()); --size_;` -/
def PopBack (v : SimpleVector α) : Option (SimpleVector α) :=
  if v.size_ = 0 then none else some { v with size_ := v.size_ - 1 }

/-- `Erase(ConstIterator pos)`: `assert(pos != end())` (`count ≠ size_`, else `none`);
`count = pos - Get()`; `std::move(Get() + count + 1, Get() + size_, Get() + count);
--size_;` and returns `&simple_vector_[count]`, modelled as the index `count`. -/
def Erase (v : SimpleVector α) (count : Nat) : Option (SimpleVector α × Nat) :=
  if count = v.size_ then none
  else
    match stdCopy v.buffer (count + 1) v.size_ v.buffer count with
    | none => none
    | some buf => some (⟨buf, v.size_ - 1, v.capacity_⟩, count)

/-- `Reserve(size_t new_capacity)`: if `new_capacity > capacity_`, allocate
`new_capacity` slots, `std::fill` them with `Type()`, copy the first `size_`
elements over, swap, `capacity_ = new_capacity`; otherwise no-op. -/
def Reserve (v : SimpleVector α) (new_capacity : Nat) : Option (SimpleVector α) :=
  if new_capacity > v.capacity_ then
    match stdFill (allocArray α new_capacity) 0 new_capacity (default : α) with
    | none => none
    | some t1 =>
      match stdCopy v.buffer 0 v.size_ t1 0 with
      | none => none
      | some t2 => some ⟨t2, v.size_, new_capacity⟩
  else some v

/-- `operator==(lhs, rhs)`: `std::equal(lhs.begin(), lhs.end(), rhs.begin())` —
compares the `lhs.size_` elements of `lhs` with the first `lhs.size_` slots of
`rhs`'s buffer; `rhs`'s own length is never consulted.  Reads beyond either
allocation are UB (`none`). -/
def opEq [DecidableEq α] (lhs rhs : SimpleVector α) : Option Bool :=
  if lhs.size_ ≤ lhs.buffer.length ∧ lhs.size_ ≤ rhs.buffer.length then
    some (lhs.buffer.take lhs.size_ == rhs.buffer.take lhs.size_)
  else none

/-- `operator!=(lhs, rhs)`: `!(lhs == rhs)`. -/
def opNe [DecidableEq α] (lhs rhs : SimpleVector α) : Option Bool :=
  (opEq lhs rhs).map (fun b => !b)

/-- Semantics of `std::lexicographical_compare(first1, last1, first2, last2)` on
the two element sequences: true iff the first range is lexicographically less
than the second, comparing with the element type's `<`. -/
def lexLt [LT α] [instLt : ∀ a b : α, Decidable (a < b)] : List α → List α → Bool
  | _, [] => false
  | [], _ :: _ => true
  | a :: as, b :: bs => if a < b then true else if b < a then false else lexLt as bs

/-- `operator<(lhs, rhs)`:
`std::lexicographical_compare(lhs.begin(), lhs.end(), rhs.begin(), rhs.end())` —
the four-iterator overload, reading exactly the two live ranges. -/
def opLt [LT α] [instLt : ∀ a b : α, Decidable (a < b)]
    (lhs rhs : SimpleVector α) : Option Bool :=
  if lhs.size_ ≤ lhs.buffer.length ∧ rhs.size_ ≤ rhs.buffer.length then
    some (lexLt (lhs.buffer.take lhs.size_) (rhs.buffer.take rhs.size_))
  else none

/-- `operator<=(lhs, rhs)`: `!(rhs < lhs)`. -/
def opLe [LT α] [instLt : ∀ a b : α, Decidable (a < b)]
    (lhs rhs : SimpleVector α) : Option Bool :=
  (opLt rhs lhs).map (fun b => !b)

/-- `operator>(lhs, rhs)`: `rhs < lhs`. -/
def opGt [LT α] [instLt : ∀ a b : α, Decidable (a < b)]
    (lhs rhs : SimpleVector α) : Option Bool :=
  opLt rhs lhs

/-- `operator>=(lhs, rhs)`: `!(lhs < rhs)`. -/
def opGe [LT α] [instLt : ∀ a b : α, Decidable (a < b)]
    (lhs rhs : SimpleVector α) : Option Bool :=
  (opLt lhs rhs).map (fun b => !b)

/-- `SimpleVector(const ReserveFunc obj)`: starts from the default-initialized
members (`size_ = 0`, `capacity_ = 0`, null buffer) and calls
`Reserve(obj.GetCapacity())`, where `ReserveFunc` merely wraps the requested
capacity. -/
def mkReserved (α : Type) [Inhabited α] (n : Nat) : Option (SimpleVector α) :=
  Reserve (mkDefault α) n

/-!  Theorems about the claims. -/

/-- Claim C1 (refuted by the code): `length ≤ capacity` is claimed to hold after
every operation, in particular after copy construction.  But the copy constructor's
member-initializer list never sets `capacity_` (it stays at its default `0`), so
copying the vector `[1]` (length 1, capacity 1) yields length 1 and reported
capacity 0 — the invariant fails. -/
theorem claim1_copyCtor_breaks_length_le_capacity :
    copyCtor (⟨[1], 1, 1⟩ : SimpleVector Nat) = some ⟨[1], 1, 0⟩ ∧
    GetSize (⟨[1], 1, 0⟩ : SimpleVector Nat) = 1 ∧
    GetCapacity (⟨[1], 1, 0⟩ : SimpleVector Nat) = 0 := by
  refine ⟨?_, rfl, rfl⟩
  decide

/-- Claim C2 (refuted by the code): equality is claimed to hold iff the lengths
are equal and the elements agree pairwise.  But `operator==` is
`std::equal(lhs.begin(), lhs.end(), rhs.begin())`, which never consults `rhs`'s
length: comparing the empty vector with the vector `[1]` returns `true` although
the lengths 0 and 1 differ. -/
theorem claim2_opEq_ignores_rhs_length :
    opEq (mkDefault Nat) (⟨[1], 1, 1⟩ : SimpleVector Nat) = some true ∧
    GetSize (mkDefault Nat) = 0 ∧
    GetSize (⟨[1], 1, 1⟩ : SimpleVector Nat) = 1 := by
  refine ⟨?_, rfl, rfl⟩
  decide

/-- Claim C3 (refuted by the code): inserting into a full vector
(`length == capacity > 0`) is claimed to grow the storage to
`max(length + 1, capacity * 2)`.  But the full branch of `Insert` allocates
`ArrayPtr<Type> temp(capacity_)` — the OLD capacity — and then writes the shifted
tail and the new element past the end of that allocation.  On the full vector `[5]`
(length 1 = capacity 1), inserting at position 1 writes slot 1 of a 1-slot buffer:
out of bounds (`none` in the model), instead of the claimed successful growth to
capacity 2. -/
theorem claim3_insert_full_writes_out_of_bounds :
    GetSize (⟨[5], 1, 1⟩ : SimpleVector Nat) = GetCapacity (⟨[5], 1, 1⟩ : SimpleVector Nat) ∧
    Insert (⟨[5], 1, 1⟩ : SimpleVector Nat) 1 2 = none ∧
    Insert (⟨[5], 1, 1⟩ : SimpleVector Nat) 0 2 = none := by
  refine ⟨rfl, ?_, ?_⟩ <;> decide

/-- Claim C4 (refuted by the code): for `length < new_size ≤ capacity`,
`Resize(new_size)` is claimed to set length to `new_size` (filling the new slots
with the default value).  But the `new_size <= capacity_` branch of `Resize` only
calls `Fill` and never assigns `size_`.  On the vector `[5]` with length 1 and
capacity 3, `Resize(2)` leaves the length at 1. -/
theorem claim4_resize_up_within_capacity_keeps_old_length :
    Resize (⟨[5, 0, 0], 1, 3⟩ : SimpleVector Nat) 2 = some ⟨[5, 0, 0], 1, 3⟩ ∧
    GetSize (⟨[5, 0, 0], 1, 3⟩ : SimpleVector Nat) = 1 := by
  refine ⟨?_, rfl⟩
  decide

/-- Claim C5 (refuted by the code): for `new_size ≤ length`, `Resize(new_size)` is
claimed to truncate the length and leave the stored values at indices `≥ new_size`
untouched.  But after the truncating branch the `new_size <= capacity_` branch also
runs and fills `[size_, size_ + new_size)` — i.e. `[new_size, 2 * new_size)` — with
default values.  On the vector `[7, 7]` with length 2 and capacity 3, `Resize(1)`
overwrites the (logically dead but claimed untouched) slot 1: the stored `7`
becomes the default `0`. -/
theorem claim5_resize_truncate_overwrites_tail :
    Resize (⟨[7, 7, 0], 2, 3⟩ : SimpleVector Nat) 1 = some ⟨[7, 0, 0], 1, 3⟩ ∧
    (⟨[7, 7, 0], 2, 3⟩ : SimpleVector Nat).buffer[1]? = some 7 ∧
    (⟨[7, 0, 0], 1, 3⟩ : SimpleVector Nat).buffer[1]? = some 0 := by
  refine ⟨?_, rfl, rfl⟩
  decide

/-- Claim C9 (confirmed): copy assignment is guarded by comparing the member
addresses, which coincide exactly for self-assignment, so assigning a vector to
itself leaves it unchanged; otherwise the result is the copy-constructed helper,
swapped in only after it is fully built — if building the helper fails, the
receiver keeps its original state. -/
theorem claim9_assign_self_safe_and_copy_and_swap (lhs rhs : SimpleVector α) :
    operatorAssign lhs rhs true = some lhs ∧
    operatorAssign lhs rhs false = copyCtor rhs ∧
    assignViaCopySwap lhs none = lhs ∧
    ∀ h, assignViaCopySwap lhs (some h) = h :=
  ⟨rfl, rfl, rfl, fun _ => rfl⟩

/-- Claim C10 (confirmed): the move constructor default-initializes the new
object's `size_` and `capacity_` to 0 (allocating `other.capacity_` fresh slots)
and then swaps with `other`; so the constructed vector takes `other`'s former
buffer, length and capacity, while `other` ends with length 0, capacity 0 and
`IsEmpty` true. -/
theorem claim10_moveCtor_transfers_and_leaves_empty (a : SimpleVector α) :
    (moveCtor a).1.buffer = a.buffer ∧
    GetSize (moveCtor a).1 = GetSize a ∧
    GetCapacity (moveCtor a).1 = GetCapacity a ∧
    GetSize (moveCtor a).2 = 0 ∧
    GetCapacity (moveCtor a).2 = 0 ∧
    IsEmpty (moveCtor a).2 = true :=
  ⟨rfl, rfl, rfl, rfl, rfl, rfl⟩

/-- An operation whose body contains no `throw` statement never surfaces a
recoverable error, whatever its input: its lifted outcome is `ok` or `ub`. -/
theorem asUB_ne_thrown {σ : Type} (o : Option σ) : asUB o ≠ Outcome.thrown := by
  cases o <;> simp [asUB]

/-- A total (never-failing) operation never surfaces a recoverable error. -/
theorem ok_ne_thrown {σ : Type} (s : σ) : Outcome.ok s ≠ Outcome.thrown := by
  simp

/-- Claim C8 (confirmed): on a well-formed state, checked access `At` surfaces the
recoverable out-of-range error exactly when `index ≥ length` (its `Option` model's
`none` is exactly that throw); for `index < length` it returns the same element as
unchecked indexed access; the method writes no member, so a failing `At` leaves
the vector unchanged; and — over every input — no other operation of the public
interface (construction in every variant, assignment, unchecked access, the
queries, clear, resize, reserve, both appends, insert, pop-back, erase, swap, and
the six comparisons) ever yields a `thrown` outcome: their only failure channels
are asserts, out-of-bounds accesses and fatal allocation, so `At` is the single
recoverable failure mode of the interface. -/
theorem claim8_at_sole_recoverable_error [DecidableEq α] [LT α]
    [instLt : ∀ a b : α, Decidable (a < b)]
    (v : SimpleVector α) (index : Nat) (w u : SimpleVector α) (i n : Nat) (x : α)
    (b : Bool) (l : List α) (hwf : v.size_ ≤ v.buffer.length) :
    ((AtE v index = Outcome.thrown ↔ v.size_ ≤ index) ∧
      (At v index = none ↔ AtE v index = Outcome.thrown) ∧
      (index < v.size_ →
        AtE v index = Outcome.ok (v.buffer.getD index default) ∧
        opIndex v index = some (v.buffer.getD index default) ∧
        v.buffer[index]? = some (v.buffer.getD index default)) ∧
      (AtRunE v index).2 = v) ∧
    (Outcome.ok (mkDefault α) ≠ Outcome.thrown ∧
      asUB (mkSized α n) ≠ Outcome.thrown ∧
      asUB (mkSizedValue n x) ≠ Outcome.thrown ∧
      asUB (mkFromList l) ≠ Outcome.thrown ∧
      asUB (mkReserved α n) ≠ Outcome.thrown ∧
      asUB (copyCtor w) ≠ Outcome.thrown ∧
      Outcome.ok (moveCtor w) ≠ Outcome.thrown ∧
      asUB (operatorAssign w u b) ≠ Outcome.thrown ∧
      asUB (opIndex w i) ≠ Outcome.thrown ∧
      Outcome.ok (GetSize w) ≠ Outcome.thrown ∧
      Outcome.ok (GetCapacity w) ≠ Outcome.thrown ∧
      Outcome.ok (IsEmpty w) ≠ Outcome.thrown ∧
      Outcome.ok (Clear w) ≠ Outcome.thrown ∧
      asUB (Resize w n) ≠ Outcome.thrown ∧
      asUB (Reserve w n) ≠ Outcome.thrown ∧
      asUB (PushBack w x) ≠ Outcome.thrown ∧
      asUB (pushBackMove w x) ≠ Outcome.thrown ∧
      asUB (Insert w i x) ≠ Outcome.thrown ∧
      asUB (PopBack w) ≠ Outcome.thrown ∧
      asUB (Erase w i) ≠ Outcome.thrown ∧
      Outcome.ok (swapOp w u) ≠ Outcome.thrown ∧
      asUB (opEq w u) ≠ Outcome.thrown ∧
      asUB (opNe w u) ≠ Outcome.thrown ∧
      asUB (opLt w u) ≠ Outcome.thrown ∧
      asUB (opLe w u) ≠ Outcome.thrown ∧
      asUB (opGt w u) ≠ Outcome.thrown ∧
      asUB (opGe w u) ≠ Outcome.thrown) := by
  constructor
  · refine ⟨?_, ?_, ?_, rfl⟩
    · unfold AtE
      by_cases h : index ≥ v.size_
      · rw [if_pos h]
        simp [h]
      · rw [if_neg h]
        simp [h]
    · unfold At AtE
      by_cases h : index ≥ v.size_
      · rw [if_pos h, if_pos h]
        simp
      · rw [if_neg h, if_neg h]
        simp
    · intro h
      have hlen : index < v.buffer.length := lt_of_lt_of_le h hwf
      refine ⟨?_, ?_, ?_⟩
      · unfold AtE
        rw [if_neg (show ¬index ≥ v.size_ by omega)]
      · unfold opIndex
        rw [if_pos h]
      · rw [List.getElem?_eq_getElem hlen]
        simp [List.getD_eq_getElem?_getD, List.getElem?_eq_getElem hlen]
  · exact ⟨ok_ne_thrown _, asUB_ne_thrown _, asUB_ne_thrown _, asUB_ne_thrown _,
      asUB_ne_thrown _, asUB_ne_thrown _, ok_ne_thrown _, asUB_ne_thrown _,
      asUB_ne_thrown _, ok_ne_thrown _, ok_ne_thrown _, ok_ne_thrown _,
      ok_ne_thrown _, asUB_ne_thrown _, asUB_ne_thrown _, asUB_ne_thrown _,
      asUB_ne_thrown _, asUB_ne_thrown _, asUB_ne_thrown _, asUB_ne_thrown _,
      ok_ne_thrown _, asUB_ne_thrown _, asUB_ne_thrown _, asUB_ne_thrown _,
      asUB_ne_thrown _, asUB_ne_thrown _, asUB_ne_thrown _⟩

/-- Witness for the C8 theorem: the vector `[4]` with the out-of-range index 5,
and the interface operations exercised at concrete inputs. -/
theorem claim8_at_sole_recoverable_error_witness :
    ((⟨[4], 1, 1⟩ : SimpleVector Nat).size_ ≤ (⟨[4], 1, 1⟩ : SimpleVector Nat).buffer.length) ∧
    (((AtE (⟨[4], 1, 1⟩ : SimpleVector Nat) 5 = Outcome.thrown ↔
        (⟨[4], 1, 1⟩ : SimpleVector Nat).size_ ≤ 5) ∧
      (At (⟨[4], 1, 1⟩ : SimpleVector Nat) 5 = none ↔
        AtE (⟨[4], 1, 1⟩ : SimpleVector Nat) 5 = Outcome.thrown) ∧
      (5 < (⟨[4], 1, 1⟩ : SimpleVector Nat).size_ →
        AtE (⟨[4], 1, 1⟩ : SimpleVector Nat) 5 =
          Outcome.ok ((⟨[4], 1, 1⟩ : SimpleVector Nat).buffer.getD 5 default) ∧
        opIndex (⟨[4], 1, 1⟩ : SimpleVector Nat) 5 =
          some ((⟨[4], 1, 1⟩ : SimpleVector Nat).buffer.getD 5 default) ∧
        (⟨[4], 1, 1⟩ : SimpleVector Nat).buffer[5]? =
          some ((⟨[4], 1, 1⟩ : SimpleVector Nat).buffer.getD 5 default)) ∧
      (AtRunE (⟨[4], 1, 1⟩ : SimpleVector Nat) 5).2 = (⟨[4], 1, 1⟩ : SimpleVector Nat)) ∧
    (Outcome.ok (mkDefault Nat) ≠ Outcome.thrown ∧
      asUB (mkSized Nat 2) ≠ Outcome.thrown ∧
      asUB (mkSizedValue 2 9) ≠ Outcome.thrown ∧
      asUB (mkFromList [3]) ≠ Outcome.thrown ∧
      asUB (mkReserved Nat 2) ≠ Outcome.thrown ∧
      asUB (copyCtor (⟨[1], 1, 1⟩ : SimpleVector Nat)) ≠ Outcome.thrown ∧
      Outcome.ok (moveCtor (⟨[1], 1, 1⟩ : SimpleVector Nat)) ≠ Outcome.thrown ∧
      asUB (operatorAssign (⟨[1], 1, 1⟩ : SimpleVector Nat)
        (⟨[2], 1, 1⟩ : SimpleVector Nat) false) ≠ Outcome.thrown ∧
      asUB (opIndex (⟨[1], 1, 1⟩ : SimpleVector Nat) 0) ≠ Outcome.thrown ∧
      Outcome.ok (GetSize (⟨[1], 1, 1⟩ : SimpleVector Nat)) ≠ Outcome.thrown ∧
      Outcome.ok (GetCapacity (⟨[1], 1, 1⟩ : SimpleVector Nat)) ≠ Outcome.thrown ∧
      Outcome.ok (IsEmpty (⟨[1], 1, 1⟩ : SimpleVector Nat)) ≠ Outcome.thrown ∧
      Outcome.ok (Clear (⟨[1], 1, 1⟩ : SimpleVector Nat)) ≠ Outcome.thrown ∧
      asUB (Resize (⟨[1], 1, 1⟩ : SimpleVector Nat) 2) ≠ Outcome.thrown ∧
      asUB (Reserve (⟨[1], 1, 1⟩ : SimpleVector Nat) 2) ≠ Outcome.thrown ∧
      asUB (PushBack (⟨[1], 1, 1⟩ : SimpleVector Nat) 9) ≠ Outcome.thrown ∧
      asUB (pushBackMove (⟨[1], 1, 1⟩ : SimpleVector Nat) 9) ≠ Outcome.thrown ∧
      asUB (Insert (⟨[1], 1, 1⟩ : SimpleVector Nat) 0 9) ≠ Outcome.thrown ∧
      asUB (PopBack (⟨[1], 1, 1⟩ : SimpleVector Nat)) ≠ Outcome.thrown ∧
      asUB (Erase (⟨[1], 1, 1⟩ : SimpleVector Nat) 0) ≠ Outcome.thrown ∧
      Outcome.ok (swapOp (⟨[1], 1, 1⟩ : SimpleVector Nat)
        (⟨[2], 1, 1⟩ : SimpleVector Nat)) ≠ Outcome.thrown ∧
      asUB (opEq (⟨[1], 1, 1⟩ : SimpleVector Nat) (⟨[2], 1, 1⟩ : SimpleVector Nat)) ≠
        Outcome.thrown ∧
      asUB (opNe (⟨[1], 1, 1⟩ : SimpleVector Nat) (⟨[2], 1, 1⟩ : SimpleVector Nat)) ≠
        Outcome.thrown ∧
      asUB (opLt (⟨[1], 1, 1⟩ : SimpleVector Nat) (⟨[2], 1, 1⟩ : SimpleVector Nat)) ≠
        Outcome.thrown ∧
      asUB (opLe (⟨[1], 1, 1⟩ : SimpleVector Nat) (⟨[2], 1, 1⟩ : SimpleVector Nat)) ≠
        Outcome.thrown ∧
      asUB (opGt (⟨[1], 1, 1⟩ : SimpleVector Nat) (⟨[2], 1, 1⟩ : SimpleVector Nat)) ≠
        Outcome.thrown ∧
      asUB (opGe (⟨[1], 1, 1⟩ : SimpleVector Nat) (⟨[2], 1, 1⟩ : SimpleVector Nat)) ≠
        Outcome.thrown)) :=
  ⟨by decide,
    claim8_at_sole_recoverable_error (⟨[4], 1, 1⟩ : SimpleVector Nat) 5
      (⟨[1], 1, 1⟩ : SimpleVector Nat) (⟨[2], 1, 1⟩ : SimpleVector Nat) 0 2 9 false [3]
      (by decide)⟩

/-- Claim C7 (confirmed): erasing at a live position `count < length` (on a state
whose allocation covers the live range) shifts the elements formerly at
`[count + 1, length)` left by one slot in order, leaves the elements before
`count` and the capacity unchanged, decrements the length, and returns the
position `count` — which is the new end exactly when the erased element was the
last one. -/
theorem claim7_erase_shifts_left (v : SimpleVector α) (count : Nat)
    (h1 : count < v.size_) (h2 : v.size_ ≤ v.buffer.length) :
    ∃ w, Erase v count = some (w, count) ∧
      GetSize w = v.size_ - 1 ∧
      GetCapacity w = GetCapacity v ∧
      w.buffer.length = v.buffer.length ∧
      (∀ i, i < count → w.buffer[i]? = v.buffer[i]?) ∧
      (∀ i, count ≤ i → i + 1 < v.size_ → w.buffer[i]? = v.buffer[i + 1]?) ∧
      (count + 1 = v.size_ → count = GetSize w) := by
  have hne : count ≠ v.size_ := Nat.ne_of_lt h1
  have hc : count + 1 ≤ v.size_ ∧ v.size_ ≤ v.buffer.length ∧
      count + (v.size_ - (count + 1)) ≤ v.buffer.length := by omega
  refine ⟨⟨copyRange v.buffer (count + 1) v.buffer count (v.size_ - (count + 1)),
    v.size_ - 1, v.capacity_⟩, ?_, rfl, rfl, length_copyRange .., ?_, ?_, ?_⟩
  · unfold Erase stdCopy
    rw [if_neg hne, if_pos hc]
  · intro i hi
    rw [getElem?_copyRange]
    rw [if_neg (by omega)]
  · intro i hci hi
    rw [getElem?_copyRange]
    have hv : count + 1 + (i - count) = i + 1 := by omega
    rw [if_pos (by omega), if_pos (by omega), hv,
      List.getElem?_eq_getElem (show i + 1 < v.buffer.length by omega)]
    simp [List.getD_eq_getElem?_getD,
      List.getElem?_eq_getElem (show i + 1 < v.buffer.length by omega)]
  · intro hlast
    show count = v.size_ - 1
    omega

/-- Witness for the C7 theorem: erasing position 1 of `[1, 2, 3]`. -/
theorem claim7_erase_shifts_left_witness :
    1 < (⟨[1, 2, 3], 3, 3⟩ : SimpleVector Nat).size_ ∧
    (∃ w, Erase (⟨[1, 2, 3], 3, 3⟩ : SimpleVector Nat) 1 = some (w, 1) ∧
      GetSize w = (⟨[1, 2, 3], 3, 3⟩ : SimpleVector Nat).size_ - 1 ∧
      GetCapacity w = GetCapacity (⟨[1, 2, 3], 3, 3⟩ : SimpleVector Nat) ∧
      w.buffer.length = (⟨[1, 2, 3], 3, 3⟩ : SimpleVector Nat).buffer.length ∧
      (∀ i, i < 1 → w.buffer[i]? = (⟨[1, 2, 3], 3, 3⟩ : SimpleVector Nat).buffer[i]?) ∧
      (∀ i, 1 ≤ i → i + 1 < (⟨[1, 2, 3], 3, 3⟩ : SimpleVector Nat).size_ →
        w.buffer[i]? = (⟨[1, 2, 3], 3, 3⟩ : SimpleVector Nat).buffer[i + 1]?) ∧
      (1 + 1 = (⟨[1, 2, 3], 3, 3⟩ : SimpleVector Nat).size_ → 1 = GetSize w)) :=
  ⟨by decide, claim7_erase_shifts_left (⟨[1, 2, 3], 3, 3⟩ : SimpleVector Nat) 1
    (by decide) (by decide)⟩

/-- Pre-filling a fresh default-valued allocation with default values is the
identity (relates the copying `PushBack`, which `std::fill`s its new buffer, to
the moving overload, which does not). -/
theorem stdFill_allocArray (n : Nat) :
    stdFill (allocArray α n) 0 n (default : α) = some (allocArray α n) := by
  unfold stdFill allocArray
  rw [if_pos ⟨Nat.zero_le _, by simp⟩, Nat.sub_zero, setRange_replicate]

/-- The two `PushBack` overloads compute the same state: the only difference in
the source is `std::fill`ing the fresh buffer with `Type()` before copying, which
is the identity on a default-initialized allocation. -/
theorem pushBack_eq_pushBackMove (v : SimpleVector α) (item : α) :
    PushBack v item = pushBackMove v item := by
  unfold PushBack pushBackMove
  by_cases h : v.size_ + 1 > v.capacity_
  · rw [if_pos h, if_pos h, stdFill_allocArray]
  · rw [if_neg h, if_neg h]

/-- Claim C6 (confirmed): on a well-formed state, appending one element (either
overload) with `length + 1 > capacity` grows the storage to exactly
`max(length + 1, capacity * 2)` while preserving the first `length` elements in
order, places the value at slot `length` and increments the length; with
`length + 1 ≤ capacity` the buffer is not reallocated.  Appending at capacity 0
lands on capacity ≥ 1. -/
theorem claim6_pushBack_append (v : SimpleVector α) (item : α)
    (hwf : v.buffer.length = v.capacity_) (hsz : v.size_ ≤ v.capacity_) :
    ∃ w, PushBack v item = some w ∧ pushBackMove v item = some w ∧
      GetSize w = v.size_ + 1 ∧
      (∀ i, i < v.size_ → w.buffer[i]? = v.buffer[i]?) ∧
      w.buffer[v.size_]? = some item ∧
      (v.capacity_ < v.size_ + 1 →
        GetCapacity w = max (v.size_ + 1) (v.capacity_ * 2) ∧
        w.buffer.length = max (v.size_ + 1) (v.capacity_ * 2)) ∧
      (v.size_ + 1 ≤ v.capacity_ →
        GetCapacity w = v.capacity_ ∧ w.buffer.length = v.buffer.length) ∧
      (v.capacity_ = 0 → 1 ≤ GetCapacity w) := by
  by_cases h : v.size_ + 1 > v.capacity_
  · have hM1 : v.size_ + 1 ≤ max (v.size_ + 1) (v.capacity_ * 2) := le_max_left _ _
    have hMlen : (allocArray α (max (v.size_ + 1) (v.capacity_ * 2))).length =
        max (v.size_ + 1) (v.capacity_ * 2) := by
      simp [allocArray]
    have hcopy : stdCopy v.buffer 0 v.size_
        (allocArray α (max (v.size_ + 1) (v.capacity_ * 2))) 0 =
        some (copyRange v.buffer 0
          (allocArray α (max (v.size_ + 1) (v.capacity_ * 2))) 0 v.size_) := by
      unfold stdCopy
      rw [if_pos ⟨Nat.zero_le _, by omega, by rw [hMlen]; omega⟩, Nat.sub_zero]
    have hwrite : writeSlot (copyRange v.buffer 0
        (allocArray α (max (v.size_ + 1) (v.capacity_ * 2))) 0 v.size_) v.size_ item =
        some ((copyRange v.buffer 0
          (allocArray α (max (v.size_ + 1) (v.capacity_ * 2))) 0 v.size_).set v.size_ item) := by
      unfold writeSlot
      rw [if_pos (by rw [length_copyRange, hMlen]; omega)]
    have hpbm : pushBackMove v item = some ⟨(copyRange v.buffer 0
        (allocArray α (max (v.size_ + 1) (v.capacity_ * 2))) 0 v.size_).set v.size_ item,
        v.size_ + 1, max (v.size_ + 1) (v.capacity_ * 2)⟩ := by
      simp only [pushBackMove, if_pos h, hcopy, hwrite]
    have hpb : PushBack v item = some ⟨(copyRange v.buffer 0
        (allocArray α (max (v.size_ + 1) (v.capacity_ * 2))) 0 v.size_).set v.size_ item,
        v.size_ + 1, max (v.size_ + 1) (v.capacity_ * 2)⟩ := by
      rw [pushBack_eq_pushBackMove]
      exact hpbm
    refine ⟨_, hpb, hpbm, rfl, ?_, ?_, ?_, ?_, ?_⟩
    · intro i hi
      rw [List.getElem?_set_ne (by omega : v.size_ ≠ i), getElem?_copyRange,
        if_pos (show 0 ≤ i ∧ i < 0 + v.size_ by omega), hMlen,
        if_pos (show i < max (v.size_ + 1) (v.capacity_ * 2) by omega)]
      have he : 0 + (i - 0) = i := by omega
      rw [he, List.getElem?_eq_getElem (show i < v.buffer.length by omega)]
      simp [List.getD_eq_getElem?_getD,
        List.getElem?_eq_getElem (show i < v.buffer.length by omega)]
    · rw [List.getElem?_set_self (by rw [length_copyRange, hMlen]; omega)]
    · intro hc
      exact ⟨rfl, by rw [List.length_set, length_copyRange, hMlen]⟩
    · intro hc
      exact absurd hc (by omega)
    · intro h0
      show 1 ≤ max (v.size_ + 1) (v.capacity_ * 2)
      omega
  · have hlt : v.size_ < v.buffer.length := by omega
    have hwr : writeSlot v.buffer v.size_ item = some (v.buffer.set v.size_ item) := by
      unfold writeSlot
      rw [if_pos hlt]
    have hpbm : pushBackMove v item =
        some ⟨v.buffer.set v.size_ item, v.size_ + 1, v.capacity_⟩ := by
      simp only [pushBackMove, if_neg h, hwr]
    have hpb : PushBack v item =
        some ⟨v.buffer.set v.size_ item, v.size_ + 1, v.capacity_⟩ := by
      rw [pushBack_eq_pushBackMove]
      exact hpbm
    refine ⟨_, hpb, hpbm, rfl, ?_, ?_, ?_, ?_, ?_⟩
    · intro i hi
      rw [List.getElem?_set_ne (by omega : v.size_ ≠ i)]
    · rw [List.getElem?_set_self hlt]
    · intro hc
      exact absurd hc (by omega)
    · intro hc
      exact ⟨rfl, List.length_set ..⟩
    · intro h0
      exact absurd h0 (by omega)

/-- Witness for the C6 theorem: appending 5 to the empty vector (length 0,
capacity 0). -/
theorem claim6_pushBack_append_witness :
    (⟨[], 0, 0⟩ : SimpleVector Nat).buffer.length = (⟨[], 0, 0⟩ : SimpleVector Nat).capacity_ ∧
    (⟨[], 0, 0⟩ : SimpleVector Nat).size_ ≤ (⟨[], 0, 0⟩ : SimpleVector Nat).capacity_ ∧
    ∃ w, PushBack (⟨[], 0, 0⟩ : SimpleVector Nat) 5 = some w ∧
      pushBackMove (⟨[], 0, 0⟩ : SimpleVector Nat) 5 = some w ∧
      GetSize w = 0 + 1 ∧
      (∀ i, i < 0 → w.buffer[i]? = (⟨[], 0, 0⟩ : SimpleVector Nat).buffer[i]?) ∧
      w.buffer[0]? = some 5 ∧
      (0 < 0 + 1 → GetCapacity w = max (0 + 1) (0 * 2) ∧
        w.buffer.length = max (0 + 1) (0 * 2)) ∧
      (0 + 1 ≤ 0 → GetCapacity w = 0 ∧
        w.buffer.length = (⟨[], 0, 0⟩ : SimpleVector Nat).buffer.length) ∧
      (0 = 0 → 1 ≤ GetCapacity w) :=
  ⟨rfl, Nat.le_refl 0,
    claim6_pushBack_append (⟨[], 0, 0⟩ : SimpleVector Nat) 5 rfl (Nat.le_refl 0)⟩

end SimpleVec
